import Mathlib

/-
Verification of the forecasting and event-impact pipeline of the
ethiopia-financial-inclusion-forecast repository.

Shallow embedding conventions:
* Python floats are idealised as real numbers.
* A pandas value that may be NaN is an Option, with none modelling NaN.
  Columns the code cannot leave NaN are plain reals; the forecast and
  event_effect columns of the event-adjusted frame may be NaN, because
  float(nan) passes through the magnitude coercion of apply_event_effects
  unchanged and NaN then propagates through + and * while Series.clip leaves
  NaN in place, so those columns are Option with NaN-propagating operations.
* The scipy Student-t quantile function stats.t.ppf is external to the
  repository; it is passed in as an abstract parameter tppf : R -> Z -> R
  (probability, degrees of freedom).
* DataFrames are lists of rows (structures).
-/

namespace EthioFI

noncomputable section

/-- pandas Series.clip(lower=0, upper=100): values below 0 become 0, above 100
become 100. -/
def clip (x : ℝ) : ℝ := min (max x 0) 100

/-- np.mean of a list. -/
def mean (xs : List ℝ) : ℝ := xs.sum / xs.length

/-- np.std of a list: population standard deviation, the square root of the
mean squared deviation from the mean. -/
def npStd (xs : List ℝ) : ℝ := Real.sqrt (mean (xs.map (fun r => (r - mean xs) ^ 2)))

/-- np.sum((X - X.mean())**2): the sum of squared deviations from the mean. -/
def sumSqDev (xs : List ℝ) : ℝ := (xs.map (fun x => (x - mean xs) ^ 2)).sum

/-- A row of the unified records table (the columns the core reads).
observation_year models pd.to_datetime(observation_date, errors="coerce").year,
none for an unparsable date; value_numeric is none for NaN. -/
structure Record where
  record_type : String
  pillar : String
  indicator_code : String
  record_id : String
  observation_year : Option ℤ
  value_numeric : Option ℝ

/-- A row of the impact_links table (the columns the core reads). -/
structure ImpactLink where
  parent_id : Option String
  related_indicator : Option String
  impact_direction : String
  impact_magnitude : Option ℝ
  lag_months : Option ℤ

/-- The datasets a ForecastModeler run works from. -/
structure Datasets where
  unified : List Record
  impact_links : List ImpactLink

/-- pandas GroupBy.last(): the last non-null value of the group. -/
def lastNonNull (vals : List (Option ℝ)) : Option ℝ :=
  vals.foldl (fun acc v => match v with | some x => some x | none => acc) none

/-- ForecastModeler.get_historical_series: filter observations of the
indicator and pillar, take the last non-null value per year (groupby drops
rows whose year is missing), sort ascending by year, drop missing values. -/
def get_historical_series (unified : List Record) (indicator_code pillar : String) :
    List (ℤ × ℝ) :=
  let obs := unified.filter (fun r =>
    r.record_type == "observation" && r.pillar == pillar &&
      r.indicator_code == indicator_code)
  let years := ((obs.filterMap (fun r => r.observation_year)).dedup).insertionSort (· ≤ ·)
  years.filterMap (fun y =>
    (lastNonNull ((obs.filter (fun r => r.observation_year == some y)).map
      (fun r => r.value_numeric))).map (fun v => (y, v)))

/-- A fitted sklearn LinearRegression: intercept and slope. -/
structure LinModel where
  intercept : ℝ
  slope : ℝ

/-- model.predict for a one-feature linear model. -/
def predict (m : LinModel) (x : ℝ) : ℝ := m.intercept + m.slope * x

/-- sklearn LinearRegression.fit on one feature: ordinary least squares,
slope = Sxy / Sxx, intercept = mean y - slope * mean x. -/
def fitOLS (xs ys : List ℝ) : LinModel :=
  let xm := mean xs
  let ym := mean ys
  let sxy := (List.zipWith (fun x y => (x - xm) * (y - ym)) xs ys).sum
  let b := sxy / sumSqDev xs
  { intercept := ym - b * xm, slope := b }

/-- model.score(X, y) for sklearn regression: R squared. -/
def r2Score (ys ypred : List ℝ) : ℝ :=
  1 - (List.zipWith (fun y p => (y - p) ^ 2) ys ypred).sum /
      (ys.map (fun y => (y - mean ys) ^ 2)).sum

/-- The metrics dictionary of fit_trend_model. -/
structure Metrics where
  rmse : ℝ
  mae : ℝ
  r2 : Option ℝ
  model_type : String

/-- ForecastModeler.fit_trend_model: raises on fewer than 2 points, fits OLS
of value on year (linear) or of log(value + 1) on year (log, predictions
back-transformed), and computes residual metrics; R squared only for the
linear case. -/
def fit_trend_model (series : List (ℤ × ℝ)) (model_type : String) :
    Except String (LinModel × List ℝ × Metrics) :=
  if series.length < 2 then
    Except.error "Insufficient data for trend modeling"
  else
    let xs := series.map (fun p => (p.1 : ℝ))
    let ys := series.map Prod.snd
    if model_type = "linear" then
      let model := fitOLS xs ys
      let ypred := xs.map (predict model)
      let residuals := List.zipWith (fun y p => y - p) ys ypred
      Except.ok (model, ypred,
        { rmse := Real.sqrt (mean (residuals.map (fun r => r ^ 2)))
          mae := mean (residuals.map (fun r => |r|))
          r2 := some (r2Score ys ypred)
          model_type := model_type })
    else if model_type = "log" then
      let ylog := ys.map (fun y => Real.log (y + 1))
      let model := fitOLS xs ylog
      let ypred := xs.map (fun x => Real.exp (predict model x) - 1)
      let residuals := List.zipWith (fun y p => y - p) ys ypred
      Except.ok (model, ypred,
        { rmse := Real.sqrt (mean (residuals.map (fun r => r ^ 2)))
          mae := mean (residuals.map (fun r => |r|))
          r2 := none
          model_type := model_type })
    else
      Except.error ("Unknown model_type: " ++ model_type)

/-- One row of the baseline forecast DataFrame produced by forecast_trend:
all numeric columns hold numbers. -/
structure ForecastRow where
  year : ℤ
  forecast : ℝ
  lower_bound : ℝ
  upper_bound : ℝ
  confidence_level : ℝ

/-- ForecastModeler.forecast_trend. tppf is the external
scipy.stats.t.ppf(probability, degrees of freedom). The linear branch builds
pointwise prediction intervals from the residual standard error; every other
model_type takes the log branch with a constant margin in log space
back-transformed through the exponential. Forecast and bounds are clipped to
[0, 100]. -/
def forecast_trend (tppf : ℝ → ℤ → ℝ) (model : LinModel) (series : List (ℤ × ℝ))
    (forecast_years : List ℤ) (model_type : String) (confidence_level : ℝ) :
    List ForecastRow :=
  let xHist := series.map (fun p => (p.1 : ℝ))
  let yHist := series.map Prod.snd
  if model_type = "linear" then
    let residuals := List.zipWith (fun y x => y - predict model x) yHist xHist
    let stdError := npStd residuals
    let tCritical := tppf ((1 + confidence_level) / 2) ((series.length : ℤ) - 2)
    let xMean := mean xHist
    forecast_years.map (fun (y0 : ℤ) =>
      let x0 : ℝ := (y0 : ℝ)
      let yF := predict model x0
      let sePred := stdError *
        Real.sqrt (1 + 1 / (series.length : ℝ) + (x0 - xMean) ^ 2 / sumSqDev xHist)
      let margin := tCritical * sePred
      { year := y0
        forecast := clip yF
        lower_bound := clip (yF - margin)
        upper_bound := clip (yF + margin)
        confidence_level := confidence_level })
  else
    let residuals := List.zipWith (fun y x => Real.log (y + 1) - predict model x) yHist xHist
    let stdError := npStd residuals
    let tCritical := tppf ((1 + confidence_level) / 2) ((series.length : ℤ) - 2)
    forecast_years.map (fun (y0 : ℤ) =>
      let x0 : ℝ := (y0 : ℝ)
      let yF := Real.exp (predict model x0) - 1
      let margin := yF * (Real.exp (tCritical * stdError) - 1)
      { year := y0
        forecast := clip yF
        lower_bound := clip (yF - margin)
        upper_bound := clip (yF + margin)
        confidence_level := confidence_level })

/-- Float addition with NaN propagation (none models NaN): a NaN operand
makes the sum NaN, as in numpy and pandas. -/
def addNaN (a b : Option ℝ) : Option ℝ :=
  match a, b with
  | some x, some y => some (x + y)
  | _, _ => none

/-- The contribution one impact link adds to event_effect at one forecast
year inside ForecastModeler.apply_event_effects: links with a missing
parent_id, an unknown event, or an unparsable event date are skipped
(contribute 0); a missing lag is coerced to 0 (int(nan) raises ValueError,
caught and replaced by 0); for months_after_event > 0 the effect ramps
linearly to full magnitude over 24 months and is sign-flipped for direction
"decrease". A NaN impact_magnitude (none) is NOT coerced: float(nan) passes
through unchanged, so once the link applies its contribution is NaN
(nan * strength and a sign flip stay NaN); before the link applies nothing
is added. (The separate None-to-0.0 default at forecaster.py line 274 only
fires when the column itself is missing from the table, which is not
modelled: the impact_links table carries the column.) -/
def linkEffect (events : List Record) (link : ImpactLink) (forecast_year : ℤ) :
    Option ℝ :=
  match link.parent_id with
  | none => some 0
  | some pid =>
    match (events.filter (fun e => e.record_id == pid)).head? with
    | none => some 0
    | some ev =>
      match ev.observation_year with
      | none => some 0
      | some event_year =>
        let lag := link.lag_months.getD 0
        let monthsAfter := (forecast_year - event_year) * 12 - lag
        if 0 < monthsAfter then
          match link.impact_magnitude with
          | none => none
          | some magnitude =>
            let strength := min 1 ((monthsAfter : ℝ) / 24)
            let effect := magnitude * strength
            some (if link.impact_direction = "decrease" then -effect else effect)
        else some 0

/-- One row of the event-adjusted forecast frame: apply_event_effects adds
the event_effect column and overwrites forecast, and both can be NaN (none)
when a NaN-magnitude link applies; the bounds are never touched, so they stay
numbers. In the no-events pipeline branch the frame is a plain copy of the
baseline, where event_effect none stands for the absent column. -/
structure EventAdjustedRow where
  year : ℤ
  forecast : Option ℝ
  lower_bound : ℝ
  upper_bound : ℝ
  confidence_level : ℝ
  event_effect : Option ℝ

/-- A baseline row viewed as a row of the event-adjusted frame shape: the
forecast is the same number, the event_effect column is absent. -/
def ForecastRow.toAdjusted (row : ForecastRow) : EventAdjustedRow :=
  { year := row.year
    forecast := some row.forecast
    lower_bound := row.lower_bound
    upper_bound := row.upper_bound
    confidence_level := row.confidence_level
    event_effect := none }

/-- ForecastModeler.apply_event_effects: add an event_effect column (0.0
start), sum the contributions of the impact links of the indicator into it
(NaN-propagating), and add it to the forecast, re-clipping to [0, 100] —
Series.clip leaves a NaN forecast in place; when no link targets the
indicator the function returns early with event_effect 0 and the forecast
untouched. Bounds are never re-clipped. -/
def apply_event_effects (baseline_forecast : List ForecastRow) (events : List Record)
    (impact_links : List ImpactLink) (indicator_code : String) :
    List EventAdjustedRow :=
  let relevant := impact_links.filter (fun l => l.related_indicator == some indicator_code)
  if relevant.isEmpty then
    baseline_forecast.map (fun row =>
      { year := row.year
        forecast := some row.forecast
        lower_bound := row.lower_bound
        upper_bound := row.upper_bound
        confidence_level := row.confidence_level
        event_effect := some 0 })
  else
    baseline_forecast.map (fun row =>
      let eff := (relevant.map (fun l => linkEffect events l row.year)).foldl addNaN
        (some 0)
      { year := row.year
        forecast := (addNaN (some row.forecast) eff).map clip
        lower_bound := row.lower_bound
        upper_bound := row.upper_bound
        confidence_level := row.confidence_level
        event_effect := eff })

/-- The scenarios dictionary of generate_scenarios. -/
structure Scenarios where
  base : List EventAdjustedRow
  optimistic : List EventAdjustedRow
  pessimistic : List EventAdjustedRow

/-- One scenario of generate_scenarios: forecast, lower_bound and upper_bound
multiplied by the scenario multiplier and clipped to [0, 100]; a NaN forecast
stays NaN through the multiplication and the clip; other columns copied
unchanged. -/
def scaleScenario (rows : List EventAdjustedRow) (multiplier : ℝ) :
    List EventAdjustedRow :=
  rows.map (fun row =>
    { row with
      forecast := (row.forecast.map (fun v => v * multiplier)).map clip
      lower_bound := clip (row.lower_bound * multiplier)
      upper_bound := clip (row.upper_bound * multiplier) })

/-- ForecastModeler.generate_scenarios: base is a copy of the input,
optimistic and pessimistic multiply the three numeric columns by their
multipliers (defaults 1.2 and 0.8) and clip to [0, 100]. -/
def generate_scenarios (base_forecast : List EventAdjustedRow)
    (optimistic_multiplier pessimistic_multiplier : ℝ) : Scenarios :=
  { base := base_forecast
    optimistic := scaleScenario base_forecast optimistic_multiplier
    pessimistic := scaleScenario base_forecast pessimistic_multiplier }

/-- The result dictionary of forecast_indicator. -/
structure ForecastResult where
  indicator_code : String
  pillar : String
  historical : List (ℤ × ℝ)
  baseline : List ForecastRow
  forecast : List EventAdjustedRow
  scenarios : Scenarios
  model_metrics : Metrics
  model_type : String

/-- ForecastModeler.forecast_indicator: extract the historical series (fail
fast if empty), fit the trend model, build the baseline forecast, apply event
effects when requested (events are the unified rows with record_type
"event"), and generate scenarios with the default multipliers. -/
def forecast_indicator (tppf : ℝ → ℤ → ℝ) (datasets : Datasets)
    (indicator_code pillar : String) (forecast_years : List ℤ)
    (include_events : Bool) (model_type : String) (confidence_level : ℝ) :
    Except String ForecastResult :=
  let historical := get_historical_series datasets.unified indicator_code pillar
  if historical.isEmpty then
    Except.error ("No historical data for " ++ indicator_code)
  else
    match fit_trend_model historical model_type with
    | Except.error e => Except.error e
    | Except.ok (model, _, metrics) =>
      let baseline := forecast_trend tppf model historical forecast_years
        model_type confidence_level
      let forecast_with_events :=
        if include_events then
          let events := datasets.unified.filter (fun r => r.record_type == "event")
          apply_event_effects baseline events datasets.impact_links indicator_code
        else baseline.map ForecastRow.toAdjusted
      Except.ok
        { indicator_code := indicator_code
          pillar := pillar
          historical := historical
          baseline := baseline
          forecast := forecast_with_events
          scenarios := generate_scenarios forecast_with_events 1.2 0.8
          model_metrics := metrics
          model_type := model_type }

/-- The value AssociationMatrixBuilder.build_association_matrix derives from
one impact link: a present magnitude is negated for direction "decrease";
an absent magnitude becomes the nominal default, 0.1 for direction
"increase" and -0.1 otherwise. -/
def resolveMagnitude (magnitude : Option ℝ) (direction : String) : ℝ :=
  match magnitude with
  | some v => if direction = "decrease" then -v else v
  | none => if direction = "increase" then 0.1 else -0.1

/-- The cell update of build_association_matrix: an empty (NaN) cell takes
the value; an occupied cell is replaced only when the new value has strictly
larger absolute value. -/
def updateCell (cell : Option ℝ) (value : ℝ) : Option ℝ :=
  match cell with
  | none => some value
  | some c => if |value| > |c| then some value else some c

/-- AssociationMatrixBuilder.build_association_matrix, viewed cellwise: fold
the impact links in order through updateCell for the links matching the
(event, indicator) cell, then fill a still-empty cell with 0.0. -/
def build_association_matrix (impact_links : List ImpactLink)
    (event_id indicator : String) : ℝ :=
  (impact_links.foldl (fun cell link =>
    if link.parent_id == some event_id && link.related_indicator == some indicator then
      updateCell cell (resolveMagnitude link.impact_magnitude link.impact_direction)
    else cell) none).getD 0

/-- pandas Series.reindex(combined_index, fill_value=0.0): look each index
value up, filling absent points with 0. -/
def reindexZero (series : List (ℤ × ℝ)) (index : List ℤ) : List (ℤ × ℝ) :=
  index.map (fun t => (t, (series.lookup t).getD 0))

/-- sorted union of the indices of the effect series. -/
def unionIndex (event_effects : List (List (ℤ × ℝ))) : List ℤ :=
  ((event_effects.flatMap (fun s => s.map Prod.fst)).dedup).insertionSort (· ≤ ·)

/-- One combination step of combine_multiple_event_effects over the shared
index: additive adds, multiplicative multiplies the accumulator by
(1 + effect), max takes the elementwise maximum, anything else adds. -/
def combineStep (combination_method : String) (combined aligned : List (ℤ × ℝ)) :
    List (ℤ × ℝ) :=
  if combination_method = "additive" then
    List.zipWith (fun c a => (c.1, c.2 + a.2)) combined aligned
  else if combination_method = "multiplicative" then
    List.zipWith (fun c a => (c.1, c.2 * (1 + a.2))) combined aligned
  else if combination_method = "max" then
    List.zipWith (fun c a => (c.1, max c.2 a.2)) combined aligned
  else
    List.zipWith (fun c a => (c.1, c.2 + a.2)) combined aligned

/-- EventImpactModeler.combine_multiple_event_effects: empty input gives an
empty series; otherwise start from an accumulator of 0.0 over the sorted
union of all indices and fold each effect series (reindexed with fill 0)
through the combination step. -/
def combine_multiple_event_effects (event_effects : List (List (ℤ × ℝ)))
    (combination_method : String) : List (ℤ × ℝ) :=
  if event_effects.isEmpty then []
  else
    let index := unionIndex event_effects
    let start := index.map (fun t => (t, (0 : ℝ)))
    event_effects.foldl (fun combined effect =>
      combineStep combination_method combined (reindexZero effect index)) start

/-- The relative_error computation of validate_against_historical_data:
difference / abs(observed_change) * 100 when observed_change is nonzero, None
otherwise. -/
def relativeError (observed_change effect_at_end : ℝ) : Option ℝ :=
  if observed_change ≠ 0 then
    some (|observed_change - effect_at_end| / |observed_change| * 100)
  else none

/-- The relative_error_pct field of the validated result: the Python line is
float(relative_error) if relative_error else None, and a float is falsy
exactly when it is 0.0, so the field is None when relative_error is None or
zero. -/
def relative_error_pct (observed_change effect_at_end : ℝ) : Option ℝ :=
  match relativeError observed_change effect_at_end with
  | some r => if r = 0 then none else some r
  | none => none

/-- One comparable-evidence record (the fields estimate_impact_from_evidence
reads). -/
structure EvidenceRec where
  country : String
  impact_magnitude : ℝ
  lag_months : ℤ

/-- The evidence store of ComparableEvidence: a dictionary keyed by
event_type and indicator joined with an underscore. -/
def getEvidence (db : List (String × List EvidenceRec)) (event_type indicator : String) :
    List EvidenceRec :=
  (db.lookup (event_type ++ "_" ++ indicator)).getD []

/-- The estimated result dictionary of estimate_impact_from_evidence. -/
structure EstimateResult where
  estimated : Bool
  reason : Option String

/-- ComparableEvidence.estimate_impact_from_evidence. The module
(comparable_evidence.py) imports pandas, typing, pathlib and the logger but
never numpy, while every branch of the non-empty-evidence path evaluates
np.median, np.mean, np.min or np.max; evaluating any of them raises
NameError, so the non-empty path is modelled as the raised error and only the
empty path returns. -/
def estimate_impact_from_evidence (db : List (String × List EvidenceRec))
    (event_type indicator method : String) : Except String EstimateResult :=
  let evidence := getEvidence db event_type indicator
  if evidence.isEmpty then
    Except.ok { estimated := false, reason := some "No comparable evidence available" }
  else
    Except.error "NameError: name np is not defined"

/-- Stated from the claim wording for C1: the standard deviation of the
in-sample residuals. -/
def claimStdError (model : LinModel) (series : List (ℤ × ℝ)) : ℝ :=
  npStd (List.zipWith (fun y x => y - predict model x)
    (series.map Prod.snd) (series.map (fun p => (p.1 : ℝ))))

/-- Stated from the claim wording for C1:
se(x0) = std_error * sqrt(1 + 1/n + (x0 - xbar)^2 / sum((xi - xbar)^2)). -/
def claimSe (model : LinModel) (series : List (ℤ × ℝ)) (x0 : ℝ) : ℝ :=
  claimStdError model series *
    Real.sqrt (1 + 1 / (series.length : ℝ) +
      (x0 - mean (series.map (fun p => (p.1 : ℝ)))) ^ 2 /
        sumSqDev (series.map (fun p => (p.1 : ℝ))))

/-- Stated from the claim wording for C1: the forecast row at year x0, with
margin = tstar * se(x0), tstar the Student-t quantile at
(1 + confidence_level)/2 with n - 2 degrees of freedom, interval
[forecast(x0) - margin, forecast(x0) + margin], and forecast, lower_bound and
upper_bound each clamped to [0, 100] afterwards. -/
def claimRow (tppf : ℝ → ℤ → ℝ) (model : LinModel) (series : List (ℤ × ℝ))
    (confidence_level : ℝ) (y0 : ℤ) : ForecastRow :=
  let tstar := tppf ((1 + confidence_level) / 2) ((series.length : ℤ) - 2)
  let margin := tstar * claimSe model series (y0 : ℝ)
  { year := y0
    forecast := clip (predict model (y0 : ℝ))
    lower_bound := clip (predict model (y0 : ℝ) - margin)
    upper_bound := clip (predict model (y0 : ℝ) + margin)
    confidence_level := confidence_level }

end

section Lemmas

end Lemmas

section Theorems

/-- C1: for the linear model, forecast_trend computes, for every forecast
year, the interval [forecast - margin, forecast + margin] with
margin = tstar * se(x0), se(x0) = std_error * sqrt(1 + 1/n +
(x0 - xbar)^2 / sum((xi - xbar)^2)), std_error the standard deviation of the
in-sample residuals and tstar the Student-t quantile at
(1 + confidence_level)/2 with n - 2 degrees of freedom, with forecast,
lower_bound and upper_bound each clamped to [0, 100] afterwards: the code
path equals the row stated from the claim wording, year by year. -/
theorem c1_linear_interval_formula (tppf : ℝ → ℤ → ℝ) (model : LinModel)
    (series : List (ℤ × ℝ)) (forecast_years : List ℤ) (confidence_level : ℝ) :
    forecast_trend tppf model series forecast_years "linear" confidence_level
      = forecast_years.map (claimRow tppf model series confidence_level) := by
  rw [forecast_trend]
  rfl

/-- C9: for a fixed set of inputs (loaded datasets, indicator, pillar,
forecast years, event flag, model type, confidence level) the
forecast_indicator pipeline is a pure function: two calls return identical
outputs. -/
theorem c9_forecast_indicator_deterministic (tppf : ℝ → ℤ → ℝ) (datasets : Datasets)
    (indicator_code pillar : String) (forecast_years : List ℤ) (include_events : Bool)
    (model_type : String) (confidence_level : ℝ) :
    forecast_indicator tppf datasets indicator_code pillar forecast_years include_events
        model_type confidence_level
      = forecast_indicator tppf datasets indicator_code pillar forecast_years
        include_events model_type confidence_level := rfl

/-- C4: the linear confidence-interval computation of forecast_trend has no
explicit guard against zero-variance year values: at the duplicate-year
series [(2020, 10), (2020, 20)] the denominator sum((xi - xbar)^2) is 0, yet
the computation proceeds through the division and still produces a forecast
row for each requested year (the Python code divides by
np.sum((X_hist - X_hist_mean)**2) unconditionally, which on floats silently
yields inf or NaN bounds). -/
theorem c4_zero_variance_unguarded :
    sumSqDev (([((2020 : ℤ), (10 : ℝ)), (2020, 20)]).map (fun p => (p.1 : ℝ))) = 0 ∧
    (forecast_trend (fun _ _ => 2) ⟨0, 1⟩ [((2020 : ℤ), (10 : ℝ)), (2020, 20)] [2025]
      "linear" 0.95).length = 1 := by
  constructor
  · norm_num [sumSqDev, mean]
  · rw [forecast_trend]
    rfl

/-- C5 counterexample: an impact link with an absent (NaN) impact_magnitude
and direction increase, whose event dates 2020, applied to a 2024 forecast
row. The association-matrix builder resolves the link to the nominal 0.1,
but apply_event_effects passes the NaN through float() unchanged, so the
event_effect column and the adjusted forecast become NaN — not the signed
nominal 0.1 the claim asserts for both consumers. -/
theorem c5_absent_magnitude_counterexample :
    build_association_matrix
        [⟨some "EV1", some "IND1", "increase", none, some 0⟩] "EV1" "IND1" = 0.1 ∧
    (apply_event_effects [⟨2024, 50, 40, 60, 0.95⟩]
        [⟨"event", "ACCESS", "", "EV1", some 2020, none⟩]
        [⟨some "EV1", some "IND1", "increase", none, some 0⟩] "IND1").map
        (fun r => (r.event_effect, r.forecast)) = [(none, none)] ∧
    ((none : Option ℝ) ≠ some 0.1) := by
  refine ⟨?_, rfl, by simp⟩
  norm_num [build_association_matrix, updateCell, resolveMagnitude]

/-- C5 amended: only the association-matrix builder substitutes the nominal
0.1 signed by impact_direction for an absent impact_magnitude.
apply_event_effects never does: a link whose magnitude is absent (NaN)
contributes NaN once it applies and 0 before it applies — never the signed
nominal value — and the NaN poisons the whole event_effect sum, as at the
concrete 2020 event applied to a 2024 row. -/
theorem c5_absent_magnitude_amended :
    (∀ direction : String,
      resolveMagnitude none direction = if direction = "increase" then 0.1 else -0.1) ∧
    (∀ (events : List Record) (link : ImpactLink) (forecast_year : ℤ),
      link.impact_magnitude = none →
        linkEffect events link forecast_year = none ∨
        linkEffect events link forecast_year = some 0) ∧
    (∀ x : Option ℝ, addNaN x none = none) ∧
    linkEffect [⟨"event", "ACCESS", "", "EV1", some 2020, none⟩]
      ⟨some "EV1", some "IND1", "increase", none, some 0⟩ 2024 = none := by
  refine ⟨fun direction => rfl, ?_, ?_, rfl⟩
  · intro events link forecast_year hmag
    rw [linkEffect]
    split
    · exact Or.inr rfl
    · split
      · exact Or.inr rfl
      · split
        · exact Or.inr rfl
        · simp only [hmag]
          exact ite_eq_or_eq _ _ _
  · intro x
    cases x <;> rfl

/-- The signed magnitudes the build_association_matrix loop derives from the
links matching one (event, indicator) cell, in link order. -/
def cellCandidates (impact_links : List ImpactLink) (event_id indicator : String) :
    List ℝ :=
  (impact_links.filter (fun l =>
    l.parent_id == some event_id && l.related_indicator == some indicator)).map
    (fun l => resolveMagnitude l.impact_magnitude l.impact_direction)

lemma foldl_guard_eq_filter_map {α : Type} (p : α → Bool) (g : α → ℝ) (links : List α)
    (acc : Option ℝ) :
    links.foldl (fun cell l => if p l then updateCell cell (g l) else cell) acc
      = ((links.filter p).map g).foldl updateCell acc := by
  induction links generalizing acc with
  | nil => rfl
  | cons a t ih =>
    by_cases hp : p a <;> simp [List.filter_cons, hp, ih]

lemma build_matrix_eq_candidates_fold (impact_links : List ImpactLink)
    (event_id indicator : String) :
    build_association_matrix impact_links event_id indicator
      = ((cellCandidates impact_links event_id indicator).foldl updateCell none).getD 0 := by
  rw [build_association_matrix, cellCandidates, foldl_guard_eq_filter_map]

lemma foldl_updateCell_dominates (vs : List ℝ) (v : ℝ) :
    ∃ w, vs.foldl updateCell (some v) = some w ∧ w ∈ v :: vs ∧
      ∀ u ∈ v :: vs, |u| ≤ |w| := by
  induction vs generalizing v with
  | nil => exact ⟨v, rfl, by simp, by simp⟩
  | cons a t ih =>
    rw [List.foldl_cons]
    by_cases hcmp : |a| > |v|
    · rw [show updateCell (some v) a = some a by simp [updateCell, hcmp]]
      obtain ⟨w, h1, h2, h3⟩ := ih a
      refine ⟨w, h1, ?_, ?_⟩
      · simp only [List.mem_cons] at h2 ⊢
        tauto
      · intro u hu
        simp only [List.mem_cons] at hu
        rcases hu with rfl | rfl | hu
        · exact le_trans (le_of_lt hcmp) (h3 a (by simp))
        · exact h3 u (by simp)
        · exact h3 u (by simp [hu])
    · rw [show updateCell (some v) a = some v by simp [updateCell, hcmp]]
      obtain ⟨w, h1, h2, h3⟩ := ih v
      refine ⟨w, h1, ?_, ?_⟩
      · simp only [List.mem_cons] at h2 ⊢
        tauto
      · intro u hu
        simp only [List.mem_cons] at hu
        rcases hu with rfl | rfl | hu
        · exact h3 u (by simp)
        · exact le_trans (not_lt.mp hcmp) (h3 v (by simp))
        · exact h3 u (by simp [hu])

/-- C6: in build_association_matrix the resolved cell is the signed magnitude
with the largest absolute value among the links of the (event, indicator)
pair, not the last writer; a cell with no link is 0.0, never null; and in
particular two links of signed magnitudes 0.3 and -0.7 resolve to -0.7 in
either arrival order. -/
theorem c6_matrix_cell_resolution :
    (∀ (impact_links : List ImpactLink) (event_id indicator : String),
      cellCandidates impact_links event_id indicator = [] →
        build_association_matrix impact_links event_id indicator = 0) ∧
    (∀ (impact_links : List ImpactLink) (event_id indicator : String),
      cellCandidates impact_links event_id indicator ≠ [] →
        build_association_matrix impact_links event_id indicator
            ∈ cellCandidates impact_links event_id indicator ∧
          ∀ v ∈ cellCandidates impact_links event_id indicator,
            |v| ≤ |build_association_matrix impact_links event_id indicator|) ∧
    build_association_matrix
      [⟨some "EV", some "IND", "increase", some 0.3, none⟩,
       ⟨some "EV", some "IND", "decrease", some 0.7, none⟩] "EV" "IND" = -0.7 ∧
    build_association_matrix
      [⟨some "EV", some "IND", "decrease", some 0.7, none⟩,
       ⟨some "EV", some "IND", "increase", some 0.3, none⟩] "EV" "IND" = -0.7 := by
  have habs : |(-0.7 : ℝ)| > |(0.3 : ℝ)| := by
    rw [abs_neg, abs_of_nonneg (by norm_num : (0 : ℝ) ≤ 0.7),
      abs_of_nonneg (by norm_num : (0 : ℝ) ≤ 0.3)]
    norm_num
  refine ⟨?_, ?_, ?_, ?_⟩
  · intro impact_links event_id indicator hnil
    rw [build_matrix_eq_candidates_fold, hnil]
    rfl
  · intro impact_links event_id indicator hne
    rcases hcand : cellCandidates impact_links event_id indicator with - | ⟨m, ms⟩
    · exact absurd hcand hne
    · rw [build_matrix_eq_candidates_fold, hcand, List.foldl_cons,
        show updateCell none m = some m from rfl]
      obtain ⟨w, h1, h2, h3⟩ := foldl_updateCell_dominates ms m
      rw [h1]
      exact ⟨h2, h3⟩
  · rw [build_matrix_eq_candidates_fold,
      show cellCandidates
        [⟨some "EV", some "IND", "increase", some 0.3, none⟩,
         ⟨some "EV", some "IND", "decrease", some 0.7, none⟩] "EV" "IND"
        = [(0.3 : ℝ), -0.7] by
          simp [cellCandidates, resolveMagnitude]]
    show (if |(-0.7 : ℝ)| > |(0.3 : ℝ)| then some (-0.7 : ℝ) else some 0.3).getD 0 = -0.7
    rw [if_pos habs]
    rfl
  · rw [build_matrix_eq_candidates_fold,
      show cellCandidates
        [⟨some "EV", some "IND", "decrease", some 0.7, none⟩,
         ⟨some "EV", some "IND", "increase", some 0.3, none⟩] "EV" "IND"
        = [(-0.7 : ℝ), 0.3] by
          simp [cellCandidates, resolveMagnitude]]
    show (if |(0.3 : ℝ)| > |(-0.7 : ℝ)| then some (0.3 : ℝ) else some (-0.7)).getD 0 = -0.7
    rw [if_neg (not_lt.mpr (le_of_lt habs))]
    rfl

lemma zipWith_map_same {α β : Type} (f : β → β → β) (g h : α → β) (l : List α) :
    List.zipWith f (l.map g) (l.map h) = l.map fun x => f (g x) (h x) := by
  induction l with
  | nil => rfl
  | cons a t ih => simp [ih]

lemma mult_fold_zero (event_effects : List (List (ℤ × ℝ))) (index : List ℤ) :
    event_effects.foldl (fun combined effect =>
        combineStep "multiplicative" combined (reindexZero effect index))
        (index.map (fun t => (t, (0 : ℝ))))
      = index.map (fun t => (t, (0 : ℝ))) := by
  induction event_effects with
  | nil => rfl
  | cons e t ih =>
    rw [List.foldl_cons,
      show combineStep "multiplicative" (index.map (fun t => (t, (0 : ℝ))))
          (reindexZero e index) = index.map (fun t => (t, (0 : ℝ))) by
        rw [combineStep, if_neg (by decide), if_pos rfl, reindexZero, zipWith_map_same]
        simp]
    exact ih

/-- C7: combine_multiple_event_effects with method multiplicative initializes
its accumulator to 0 over the sorted union of the input time indices and
multiplies it pointwise by (1 + effect) for each event series, so for every
non-empty list of effect series the combined result is 0 at every time point
of the union index. -/
theorem c7_multiplicative_combination_is_zero (e : List (ℤ × ℝ))
    (es : List (List (ℤ × ℝ))) :
    combine_multiple_event_effects (e :: es) "multiplicative"
      = (unionIndex (e :: es)).map (fun t => (t, (0 : ℝ))) := by
  rw [combine_multiple_event_effects, if_neg (by simp)]
  exact mult_fold_zero (e :: es) (unionIndex (e :: es))

/-- C8 counterexample: with observed_change 5 and a predicted effect of 5 the
difference is 0, the computed relative error is 0.0, and the Python line
float(relative_error) if relative_error else None reports None although
observed_change is nonzero, so relative_error_pct is not omitted only when
observed_change is 0. -/
theorem c8_relative_error_counterexample :
    relative_error_pct 5 5 = none ∧ (5 : ℝ) ≠ 0 := by
  constructor
  · norm_num [relative_error_pct, relativeError]
  · norm_num

/-- C8 amended: in the validated result, relative_error_pct is None exactly
when observed_change is 0 or the prediction matches observed_change exactly
(difference 0, hence a falsy 0.0 relative error); for a nonzero
observed_change and a nonzero difference it carries
difference / abs(observed_change) * 100. -/
theorem c8_relative_error_amended (observed_change effect_at_end : ℝ) :
    (relative_error_pct observed_change effect_at_end = none ↔
      observed_change = 0 ∨ observed_change = effect_at_end) ∧
    (observed_change ≠ 0 → observed_change ≠ effect_at_end →
      relative_error_pct observed_change effect_at_end
        = some (|observed_change - effect_at_end| / |observed_change| * 100)) := by
  by_cases ho : observed_change = 0
  · constructor
    · simp [relative_error_pct, relativeError, ho]
    · intro h
      exact absurd ho h
  · have hr : relativeError observed_change effect_at_end
        = some (|observed_change - effect_at_end| / |observed_change| * 100) := by
      rw [relativeError, if_pos ho]
    by_cases he : observed_change = effect_at_end
    · have hz : |observed_change - effect_at_end| / |observed_change| * 100 = 0 := by
        rw [he, sub_self, abs_zero, zero_div, zero_mul]
      refine ⟨?_, fun _ h => absurd he h⟩
      rw [relative_error_pct, hr]
      simp [hz, he]
    · have hz : |observed_change - effect_at_end| / |observed_change| * 100 ≠ 0 :=
        mul_ne_zero (div_ne_zero (abs_ne_zero.mpr (sub_ne_zero.mpr he))
          (abs_ne_zero.mpr ho)) (by norm_num)
      constructor
      · rw [relative_error_pct, hr]
        simp [hz, ho, he]
      · intro _ _
        rw [relative_error_pct, hr]
        simp [hz]

/-- C10: estimate_impact_from_evidence returns the structured
not-estimated result exactly when no comparable evidence matches the
(event_type, indicator) key; whenever at least one matching record exists it
raises instead of returning, because comparable_evidence.py references
np.median, np.mean, np.min and np.max while numpy is never imported. -/
theorem c10_estimate_raises_with_evidence :
    (∀ (db : List (String × List EvidenceRec)) (event_type indicator method : String),
      getEvidence db event_type indicator = [] →
        estimate_impact_from_evidence db event_type indicator method
          = Except.ok ⟨false, some "No comparable evidence available"⟩) ∧
    (∀ (db : List (String × List EvidenceRec)) (event_type indicator method : String),
      getEvidence db event_type indicator ≠ [] →
        estimate_impact_from_evidence db event_type indicator method
          = Except.error "NameError: name np is not defined") := by
  constructor
  · intro db event_type indicator method h
    rw [estimate_impact_from_evidence, if_pos (by simp [h])]
  · intro db event_type indicator method h
    rw [estimate_impact_from_evidence, if_neg (by simp [h])]

end Theorems

end EthioFI
